import Mathlib

/-!
Verification development for the GopherCon 2025 agenda loader
(`main.go`, `sessions.go`).

The Go program maintains a global `map[string]Session` guarded by a
reader/writer mutex, populates it with a worker pool that fetches and
parses one session page per identifier with bounded retries, and serves
two read-only query tools.  Here the relevant pieces are embedded as
pure Lean functions:

* `Session` mirrors the Go struct `Session` (main.go).
* `Catalog` models the global `sessionsMap` as an association list with
  Go-map assignment semantics (`mapInsert` replaces the entry for an
  existing key in place, otherwise appends).
* `sessions` / `sessionByID` mirror the two store reads (sessions.go).
* `parseSessionDoc` mirrors the field extraction of
  `fetcher.parseSession`, over an abstract parsed document: a function
  from a CSS selector to the list of texts of its matches in document
  order.
* `retryGo` mirrors the retry loop of `fetcher.worker`; the merge loop
  of `fetcher.fetch` is `mergeResult` / `mergeAll`.
* `loadSessionsFromFile` mirrors the offline bulk load; the two
  `close(sessionsReady)` sites of the online path are modelled as an
  explicit list of channel operations interpreted by `runReadyOps`
  with Go's close-of-closed-channel panic semantics.
-/

/-- Mirrors the Go struct `Session` (main.go): all fields strings except
the ordered speaker list.  (`part_001`'s variant adds `Speaker`/`Track`
fields; the claims cite the `main.go`/`sessions.go` variant.) -/
structure Session where
  ID : String
  Title : String
  URL : String
  Date : String
  Description : String
  Time : String
  Location : String
  Speakers : List String
  Duration : String
deriving Repr, DecidableEq

/-- The Go zero value `Session{}`: every field empty. -/
def Session.zero : Session :=
  { ID := "", Title := "", URL := "", Date := "", Description := "",
    Time := "", Location := "", Speakers := [], Duration := "" }

/-- The global `sessionsMap : map[string]Session`, modelled as an
association list whose keys are unique (an invariant we prove is
preserved by `mapInsert`). -/
abbrev Catalog := List (String × Session)

/-- Go map assignment `m[k] = v`: replace the entry for `k` if present,
otherwise add a new entry. -/
def mapInsert {β : Type} (m : List (String × β)) (k : String) (v : β) :
    List (String × β) :=
  match m with
  | [] => [(k, v)]
  | (k', v') :: rest =>
    if k' = k then (k, v) :: rest else (k', v') :: mapInsert rest k v

/-- Go map read `m[k]`: the value stored at `k`, if any.  Mirrors the
read in `sessionByID` (sessions.go:38). -/
def mapLookup {β : Type} (m : List (String × β)) (k : String) : Option β :=
  match m with
  | [] => none
  | (k', v') :: rest => if k' = k then some v' else mapLookup rest k

/-- The key set of the map, in insertion order. -/
def catalogKeys {β : Type} (m : List (String × β)) : List String :=
  m.map Prod.fst

/-- `sessions()` (sessions.go:22-31): copies all stored values into a
fresh slice and returns it. -/
def sessions (m : Catalog) : List Session := m.map Prod.snd

/-- `sessionByID(id)` (sessions.go:34-40): map read returning the
record and an existence flag. -/
def sessionByID (m : Catalog) (id : String) : Option Session := mapLookup m id

/-- `sessionResult` (sessions.go:128-132): identifier, record, and
error-or-none, sent by a worker over `resultChan`. -/
structure SessionResult where
  sessionID : String
  session : Session
  err : Option String
deriving Repr, DecidableEq

/-- One iteration of the merge loop in `fetcher.fetch`
(sessions.go:109-121): a failed result is logged and dropped, a
successful one is written to the map keyed by `result.session.ID`. -/
def mergeResult (m : Catalog) (r : SessionResult) : Catalog :=
  match r.err with
  | some _ => m
  | none => mapInsert m r.session.ID r.session

/-- The whole merge loop: fold `mergeResult` over the results in the
order they are received from `resultChan`. -/
def mergeAll (rs : List SessionResult) (m : Catalog) : Catalog :=
  rs.foldl mergeResult m

/-- Abstract parsed HTML document: a CSS selector maps to the list of
texts of its matches, in document order (`doc.Find(sel)`). -/
abbrev Doc := String → List String

/-- `strings.TrimSpace`: drop leading and trailing whitespace.  (Go
trims Unicode white space; the claims involve only ASCII whitespace,
on which `Char.isWhitespace` agrees.) -/
def trimSpace (s : String) : String :=
  ⟨((s.data.dropWhile Char.isWhitespace).reverse.dropWhile
      Char.isWhitespace).reverse⟩

/-- `doc.Find(sel).First().Text()`: the text of the first match, or the
empty string when the selector matches nothing. -/
def findFirstText (doc : Doc) (sel : String) : String := (doc sel).headD ""

/-- One conditional field assignment of `fetcher.parseSession`:
`if t := doc.Find(sel).First().Text(); t != "" x field = TrimSpace(t) x`
— the field's final value, the zero value `""` when the text is empty. -/
def extractScalar (doc : Doc) (sel : String) : String :=
  let t := findFirstText doc sel
  if t ≠ "" then trimSpace t else ""

/-- The `.speaker-name` loop of `fetcher.parseSession`
(sessions.go:215-220): visit every match in document order, trim it,
and append it to the speaker list when the trimmed name is non-empty.
No deduplication is performed. -/
def collectSpeakers (frags : List String) : List String :=
  frags.foldl
    (fun acc s =>
      let name := trimSpace s
      if name ≠ "" then acc ++ [name] else acc) []

/-- The extraction part of `fetcher.parseSession` (sessions.go:177-222),
run after the page was fetched and the HTML parsed successfully. -/
def parseSessionDoc (sessionID url : String) (doc : Doc) : Session :=
  { ID := sessionID
    URL := url
    Title := extractScalar doc ".session-title"
    Description := extractScalar doc ".session-description"
    Date := extractScalar doc ".session-date"
    Time := extractScalar doc ".session-dates time"
    Location := extractScalar doc ".session-location"
    Duration := extractScalar doc ".session-duration"
    Speakers := collectSpeakers (doc ".speaker-name") }

/-- `fetcher.parseSession` (sessions.go:165-223) with the page fetch
and the HTML parser abstracted; fetch and parse failures are wrapped
with the identifier exactly as the two Go `fmt.Errorf` calls do. -/
def parseSession (fetchPage : String → Except String String)
    (parseHTML : String → Except String Doc)
    (sessionID url : String) : Except String Session :=
  match fetchPage url with
  | .error e => .error ("failed to fetch session " ++ sessionID ++ ": " ++ e)
  | .ok html =>
    match parseHTML html with
    | .error e =>
      .error ("failed to parse HTML for session " ++ sessionID ++ ": " ++ e)
    | .ok doc => .ok (parseSessionDoc sessionID url doc)

/-- Outcome of one retry loop of `fetcher.worker`: the final
`(session, err)` pair, the number of `parseSession` calls made, and the
back-off sleeps performed, in time units
(`time.Sleep(time.Duration(attempt) * time.Second)`). -/
structure RetryOutcome where
  result : Except String Session
  calls : Nat
  sleeps : List Nat
deriving Repr

/-- The loop `for attempt := 1; attempt <= maxRetries; attempt++` of
`fetcher.worker` (sessions.go:144-154): call `parseSession`, break on
success, otherwise sleep `attempt` units when attempts remain.  The
loop counter is compiled into `remaining` (iterations still allowed,
`maxRetries + 1 - attempt`) plus the Go `attempt` counter; `last`
carries the current `(session, err)` pair for the case the loop body
never runs (Go's zero values). -/
def retryLoop (attemptFn : Nat → Except String Session) :
    Nat → Nat → Except String Session → Nat → List Nat → RetryOutcome
  | 0, _, last, calls, sleeps => ⟨last, calls, sleeps⟩
  | remaining + 1, attempt, _, calls, sleeps =>
    match attemptFn attempt with
    | .ok s => ⟨.ok s, calls + 1, sleeps⟩
    | .error e =>
      if remaining = 0 then ⟨.error e, calls + 1, sleeps⟩
      else
        retryLoop attemptFn remaining (attempt + 1) (.error e) (calls + 1)
          (sleeps ++ [attempt])

/-- The retry loop started the way `fetcher.worker` starts it:
`var session Session; var err error` (zero values), `attempt := 1`,
and `maxRetries` iterations allowed. -/
def workerRetry (attemptFn : Nat → Except String Session)
    (maxRetries : Nat) : RetryOutcome :=
  retryLoop attemptFn maxRetries 1 (.ok Session.zero) 0 []

/-- `url := fmt.Sprintf("https://www.gophercon.com/agenda/session/%s", sessionID)`
(sessions.go:138). -/
def sessionURL (sessionID : String) : String :=
  "https://www.gophercon.com/agenda/session/" ++ sessionID

/-- `maxRetries` (sessions.go:80). -/
def maxRetries : Nat := 3

/-- One whole work item of `fetcher.worker` (sessions.go:137-161): the
retry-wrapped fetch job for one identifier, with the per-attempt page
fetch abstracted as `fetchStub` (attempt number → URL → markup or
error). -/
def workerJob (fetchStub : Nat → String → Except String String)
    (parseHTML : String → Except String Doc) (sessionID : String) :
    RetryOutcome :=
  workerRetry
    (fun attempt =>
      parseSession (fetchStub attempt) parseHTML sessionID
        (sessionURL sessionID))
    maxRetries

/-- The `sessionResult` the worker sends on `resultChan`
(sessions.go:156-160) from the retry outcome; on terminal failure the
`session` field still holds the zero value `Session{}`. -/
def outcomeResult (sessionID : String) (o : RetryOutcome) : SessionResult :=
  match o.result with
  | .ok s => ⟨sessionID, s, none⟩
  | .error e => ⟨sessionID, Session.zero, some e⟩

/-- An observable event of the load path: a network page fetch for an
identifier (one event recorded per fetched identifier; the per-attempt
granularity is irrelevant to the claims), or a `close(sessionsReady)`. -/
inductive LoadEvent
  | networkFetch (sessionID : String)
  | readyClose
deriving Repr, DecidableEq

/-- Go channel-close semantics for `sessionsReady`: the state is
whether the channel is already closed; closing a closed channel panics
with "close of closed channel". -/
def runReadyCloses : List LoadEvent → Bool → Except String Bool
  | [], closed => .ok closed
  | LoadEvent.readyClose :: rest, closed =>
    if closed then .error "close of closed channel"
    else runReadyCloses rest true
  | LoadEvent.networkFetch _ :: rest, closed => runReadyCloses rest closed

/-- Number of `close(sessionsReady)` operations in an event trace. -/
def countCloses (events : List LoadEvent) : Nat :=
  events.count LoadEvent.readyClose

/-- Number of network fetch events in an event trace. -/
def countFetches (events : List LoadEvent) : Nat :=
  (events.filter fun e =>
    match e with
    | LoadEvent.networkFetch _ => true
    | LoadEvent.readyClose => false).length

/-- `fetcher.fetch` (sessions.go:75-125): every identifier handed to the
workers is fetched over the network, the merge loop drains `resultChan`
merging each result, and the final statement is `close(sessionsReady)`
(line 124).  Returns the catalog and the event trace. -/
def fetchRun (results : List SessionResult) (m : Catalog) :
    Catalog × List LoadEvent :=
  (mergeAll results m,
    (results.map fun r => LoadEvent.networkFetch r.sessionID)
      ++ [LoadEvent.readyClose])

/-- `loadSessionsFromFile` (sessions.go:266-293): decode the snapshot
file into a slice of records, then `sessionsMap[session.ID] = session`
for each record in file order. -/
def loadSessionsFromFile (fileData : List Session) (m : Catalog) : Catalog :=
  fileData.foldl (fun acc s => mapInsert acc s.ID s) m

/-- `loadSessions` (sessions.go:246-264): offline mode loads the file
and closes `sessionsReady` (line 252) without any network fetch; the
online path runs `fetcher.fetch` (whose own last statement already
closes `sessionsReady`, line 124) and then closes `sessionsReady` again
(line 261). -/
def loadSessionsRun (offline : Bool) (fileData : List Session)
    (results : List SessionResult) (m : Catalog) :
    Catalog × List LoadEvent :=
  if offline then (loadSessionsFromFile fileData m, [LoadEvent.readyClose])
  else
    let r := fetchRun results m
    (r.1, r.2 ++ [LoadEvent.readyClose])

/-- `sessionIDs` (sessions.go:296-304): the hard-coded identifier list
for GopherCon 2025, in source order. -/
def sessionIDs : List String :=
  ["1545653", "1557197", "1590663", "1545640", "1590103", "1594224",
   "1545643", "1545641", "1557237", "1557206",
   "1545646", "1557199", "1557216", "1545650", "1545651", "1565804",
   "1557235", "1545655", "1545656", "1545657",
   "1545658", "1545682", "1572365", "1545661", "1545662", "1545663",
   "1545664", "1557386", "1557394", "1545667",
   "1557388", "1557392", "1557390", "1557391", "1545671", "1557387",
   "1557389", "1557348", "1647415", "1557393",
   "1557391", "1545679", "1545681", "1557342", "1572366", "1557343",
   "1545685", "1545686", "1545687", "1557395",
   "1557396", "1557397", "1557345", "1557398", "1557399", "1557400",
   "1557347", "1557344", "1557402", "1557403",
   "1545674", "1557401", "1557404", "1557405", "1557195"]

/-- The text and structured parts of one MCP tool result
(`mcp.CallToolResultFor[SessionsResult]`): the `TextContent` strings
and the optional `SessionsResult` payload. -/
structure ToolResult where
  content : List String
  structured : Option (List Session)
deriving Repr, DecidableEq

/-- The globals of main.go that the two handlers read:
`sessionsLoaded`, `loadingError`, and the session map. -/
structure ServerState where
  sessionsLoaded : Bool
  loadingError : Option String
  store : Catalog

/-- The notice emitted while loading is in progress (main.go:66). -/
def stillLoadingText : String :=
  "Sessions are still loading, results may be incomplete."

/-- The not-found message of `SessionByID` (main.go:93). -/
def notFoundText (sid : String) : String :=
  "Session with ID " ++ sid ++
    " not found. Use get_all_sessions to see available session IDs."

/-- The success message of `SessionByID` (main.go:99). -/
def foundText : String := "Successfully found session details."

/-- `AllSessions` (main.go:57-75): when loading is unfinished, fail if
a load error was recorded, otherwise add the still-loading notice; then
always return the current catalog copy as structured content. -/
def AllSessions (st : ServerState) : Except String ToolResult :=
  if st.sessionsLoaded then
    .ok { content := [], structured := some (sessions st.store) }
  else
    match st.loadingError with
    | some e => .error ("Error loading sessions: " ++ e)
    | none =>
      .ok { content := [stillLoadingText],
            structured := some (sessions st.store) }

/-- The lookup part of `SessionByID` (main.go:90-104), given the `res`
built by the loading prelude: both branches overwrite `res.Content`;
only the found branch sets structured content. -/
def sessionByIDRest (st : ServerState) (sid : String) (res : ToolResult) :
    ToolResult :=
  match sessionByID st.store sid with
  | none => { res with content := [notFoundText sid] }
  | some s => { content := [foundText], structured := some [s] }

/-- `SessionByID` (main.go:77-105): the same loading prelude as
`AllSessions`, then the lookup. -/
def SessionByIDTool (st : ServerState) (sid : String) :
    Except String ToolResult :=
  if st.sessionsLoaded then
    .ok (sessionByIDRest st sid { content := [], structured := none })
  else
    match st.loadingError with
    | some e => .error ("Error loading sessions: " ++ e)
    | none =>
      .ok (sessionByIDRest st sid
        { content := [stillLoadingText], structured := none })

/- ### Slice-aliasing model for `Session.Speakers`

`sessions()` copies each stored `Session` struct into a fresh slice.
In Go a struct copy copies the `Speakers` slice *header*; the backing
array is shared between the copy and the stored record.  To reason
about this, `SessionH` is the `Session` struct with the slice header
made explicit as a reference into a heap of backing arrays. -/

/-- `Session` with the `Speakers` slice header explicit: `speakersRef`
is a reference into the heap of string arrays. -/
structure SessionH where
  ID : String
  Title : String
  URL : String
  Date : String
  Description : String
  Time : String
  Location : String
  speakersRef : Nat
  Duration : String
deriving Repr, DecidableEq

/-- The store under the aliasing model: the heap of speaker backing
arrays plus the keyed map of records. -/
structure StoreH where
  heap : List (List String)
  map : List (String × SessionH)
deriving Repr

/-- `sessions()` under the aliasing model: the per-element struct copy
copies each record's slice header, not the backing array. -/
def sessionsH (st : StoreH) : List SessionH := st.map.map Prod.snd

/-- `sessionByID` under the aliasing model. -/
def sessionByIDH (st : StoreH) (id : String) : Option SessionH :=
  mapLookup st.map id

/-- Dereference a record's `Speakers` slice in the current heap. -/
def readSpeakers (st : StoreH) (s : SessionH) : List String :=
  st.heap.getD s.speakersRef []

/-- A caller assigning `rec.Speakers[i] = v` on a record value it
holds: the write goes through the shared backing array. -/
def writeSpeaker (st : StoreH) (s : SessionH) (i : Nat) (v : String) :
    StoreH :=
  { st with
    heap := st.heap.set s.speakersRef
      ((st.heap.getD s.speakersRef []).set i v) }

/-- A store write as the merge loop performs it (`sessionsMap[id] = s`
with a freshly parsed record): the new record's speaker array is a
fresh allocation (appended to the heap); no existing backing array is
modified. -/
def putH (st : StoreH) (id title url date desc time loc dur : String)
    (speakers : List String) : StoreH :=
  { heap := st.heap ++ [speakers]
    map := mapInsert st.map id
      { ID := id, Title := title, URL := url, Date := date,
        Description := desc, Time := time, Location := loc,
        speakersRef := st.heap.length, Duration := dur } }

/-- The identifiers of the successful results, in arrival order —
exactly the keys the merge loop writes (`result.session.ID`). -/
def successIDs (rs : List SessionResult) : List String :=
  (rs.filter fun r => r.err.isNone).map fun r => r.session.ID

/- ### Concrete inputs used by witnesses and counterexamples -/

/-- A page of markup returned by a succeeding fetch stub. -/
def stubPage : String := "<html>session page</html>"

/-- A sample parsed document: a title with surrounding whitespace, a
duplicated speaker name, and no other matches. -/
def sampleDoc : Doc := fun sel =>
  if sel = ".session-title" then [" Go Forth "]
  else if sel = ".speaker-name" then ["Ann Lee", "Ann Lee"]
  else []

/-- A fetch stub that fails on the first two attempts and succeeds on
the third. -/
def fetchFailTwice : Nat → String → Except String String
  | 1, _ => .error "first failure"
  | 2, _ => .error "second failure"
  | _, _ => .ok stubPage

/-- A fetch stub that always fails. -/
def fetchAlwaysFail : Nat → String → Except String String :=
  fun _ _ => .error "network down"

/-- An HTML parser stub that always parses to `sampleDoc`. -/
def parseHTMLOk : String → Except String Doc := fun _ => .ok sampleDoc

/-- Markup with a title but no description block. -/
def docNoDesc : Doc := fun sel =>
  if sel = ".session-title" then [" Go Forth "] else []

/-- Speaker matches containing a whitespace-only fragment. -/
def docSpeakerWS : Doc := fun sel =>
  if sel = ".speaker-name" then ["Alice", " "] else []

/-- The snapshot record `A` from the spec's offline-load example. -/
def sessionA : Session := { Session.zero with ID := "A", Title := "Talk A" }

/-- The snapshot record `B` from the spec's offline-load example. -/
def sessionB : Session := { Session.zero with ID := "B", Title := "Talk B" }

/-- A stored record under the aliasing model, whose `Speakers` header
points at heap cell 0. -/
def sampleRecH : SessionH := ⟨"s1", "T", "u", "", "", "", "", 0, ""⟩

/-- A store holding `sampleRecH` with backing array `["Alice"]`. -/
def storeH0 : StoreH := ⟨[["Alice"]], [("s1", sampleRecH)]⟩

/-- Server state while the load is still running: partial catalog with
only `sessionA`, no load error. -/
def loadingState : ServerState := ⟨false, none, [("A", sessionA)]⟩

/-- One all-failing fetch result per entry of the identifier list. -/
def allFailResults : List SessionResult :=
  sessionIDs.map fun id => ⟨id, Session.zero, some "fetch failed"⟩

/-- Results used by witnesses: two successes and one terminal failure,
for real identifiers. -/
def sampleResults : List SessionResult :=
  [⟨"1545653", { Session.zero with ID := "1545653", Title := "T1" }, none⟩,
   ⟨"1590663", Session.zero, some "failed"⟩,
   ⟨"1557197", { Session.zero with ID := "1557197", Title := "T2" }, none⟩]


/-- A fetch-level stub for the retry loop: fails on attempts 1 and 2,
succeeds on attempt 3 with `sessionA`. -/
def attemptFailTwice : Nat → Except String Session
  | 1 => .error "first failure"
  | 2 => .error "second failure"
  | _ => .ok sessionA

/-- A page fetch that always succeeds with `stubPage`. -/
def fetchPageOk : String → Except String String := fun _ => .ok stubPage

/-- An HTML parser stub that parses everything to `docNoDesc`. -/
def parseHTMLNoDesc : String → Except String Doc := fun _ => .ok docNoDesc

/- ### Basic store lemmas -/

theorem mapLookup_mapInsert_self {β : Type} (m : List (String × β)) (k : String) (v : β) :
    mapLookup (mapInsert m k v) k = some v := by
  induction m with
  | nil => simp [mapInsert, mapLookup]
  | cons hd tl ih =>
    obtain ⟨k', v'⟩ := hd
    by_cases h : k' = k <;> simp [mapInsert, mapLookup, h, ih]

theorem mapLookup_mapInsert_ne {β : Type} (m : List (String × β)) (k k' : String) (v : β)
    (h : k' ≠ k) : mapLookup (mapInsert m k v) k' = mapLookup m k' := by
  have h' : ¬ k = k' := fun hk => h hk.symm
  induction m with
  | nil => simp [mapInsert, mapLookup, h']
  | cons hd tl ih =>
    obtain ⟨k₀, v₀⟩ := hd
    by_cases h0 : k₀ = k
    · subst h0
      simp [mapInsert, mapLookup, h']
    · by_cases h1 : k₀ = k' <;> simp [mapInsert, mapLookup, h0, h1, h, ih]

theorem catalogKeys_mapInsert {β : Type} (m : List (String × β)) (k : String) (v : β) :
    catalogKeys (mapInsert m k v) =
      if k ∈ catalogKeys m then catalogKeys m else catalogKeys m ++ [k] := by
  induction m with
  | nil => simp [mapInsert, catalogKeys]
  | cons hd tl ih =>
    obtain ⟨k₀, v₀⟩ := hd
    by_cases h0 : k₀ = k
    · subst h0
      simp [mapInsert, catalogKeys]
    · have hne : k ≠ k₀ := fun h => h0 h.symm
      have hkeys : catalogKeys (mapInsert ((k₀, v₀) :: tl) k v)
          = k₀ :: catalogKeys (mapInsert tl k v) := by
        simp [mapInsert, catalogKeys, h0]
      have hmemc : (k ∈ catalogKeys ((k₀, v₀) :: tl)) ↔ k ∈ catalogKeys tl := by
        simp [catalogKeys, hne]
      by_cases hmem : k ∈ catalogKeys tl
      · rw [hkeys, ih, if_pos hmem, if_pos (hmemc.mpr hmem)]
        simp [catalogKeys]
      · rw [hkeys, ih, if_neg hmem, if_neg (fun hc => hmem (hmemc.mp hc))]
        simp [catalogKeys]

theorem catalogKeys_nodup_mapInsert {β : Type} (m : List (String × β)) (k : String) (v : β)
    (h : (catalogKeys m).Nodup) : (catalogKeys (mapInsert m k v)).Nodup := by
  rw [catalogKeys_mapInsert]
  by_cases hmem : k ∈ catalogKeys m
  · simpa [hmem]
  · simpa [hmem, List.nodup_append] using h

theorem mem_catalogKeys_mapInsert {β : Type} (m : List (String × β)) (k k' : String) (v : β) :
    k' ∈ catalogKeys (mapInsert m k v) ↔ k' ∈ catalogKeys m ∨ k' = k := by
  rw [catalogKeys_mapInsert]
  by_cases hmem : k ∈ catalogKeys m
  · simp only [hmem, if_pos]
    constructor
    · exact Or.inl
    · rintro (h | rfl)
      · exact h
      · exact hmem
  · simp [hmem]

theorem length_sessions (m : Catalog) :
    (sessions m).length = (catalogKeys m).length := by
  simp [sessions, catalogKeys]

theorem mapLookup_mem {β : Type} (m : List (String × β)) (k : String) (v : β)
    (h : mapLookup m k = some v) : (k, v) ∈ m := by
  induction m with
  | nil => simp [mapLookup] at h
  | cons hd tl ih =>
    obtain ⟨k', v'⟩ := hd
    by_cases hk : k' = k
    · subst hk
      have hv : v' = v := by simpa [mapLookup] using h
      subst hv
      exact List.mem_cons_self _ _
    · simp only [mapLookup, if_neg hk] at h
      exact List.mem_cons_of_mem _ (ih h)

theorem mapInsert_pairs {β : Type} (m : List (String × β)) (k : String) (v : β)
    (P : String × β → Prop) (hm : ∀ p ∈ m, P p) (hv : P (k, v)) :
    ∀ p ∈ mapInsert m k v, P p := by
  induction m with
  | nil => simpa [mapInsert] using hv
  | cons hd tl ih =>
    obtain ⟨k₀, v₀⟩ := hd
    intro p hp
    by_cases h0 : k₀ = k
    · subst h0
      have hins : mapInsert ((k₀, v₀) :: tl) k₀ v = (k₀, v) :: tl := by
        simp [mapInsert]
      rw [hins] at hp
      rcases List.mem_cons.mp hp with rfl | hp
      · exact hv
      · exact hm p (List.mem_cons_of_mem _ hp)
    · simp only [mapInsert, if_neg h0, List.mem_cons] at hp
      rcases hp with rfl | hp
      · exact hm (k₀, v₀) (List.mem_cons_self _ _)
      · exact ih (fun q hq => hm q (List.mem_cons_of_mem _ hq)) p hp

theorem mergeAll_cons (r : SessionResult) (rest : List SessionResult)
    (m : Catalog) : mergeAll (r :: rest) m = mergeAll rest (mergeResult m r) :=
  rfl

theorem mergeAll_pairs (rs : List SessionResult) (m : Catalog)
    (hm : ∀ p ∈ m, (p : String × Session).2.ID = p.1) :
    ∀ p ∈ mergeAll rs m, p.2.ID = p.1 := by
  induction rs generalizing m with
  | nil => simpa [mergeAll] using hm
  | cons r rest ih =>
    rw [mergeAll_cons]
    apply ih
    cases herr : r.err with
    | some e => simpa [mergeResult, herr] using hm
    | none =>
      simp only [mergeResult, herr]
      exact mapInsert_pairs _ _ _ _ hm rfl

theorem successIDs_cons (r : SessionResult) (rest : List SessionResult) :
    successIDs (r :: rest) =
      if r.err.isNone then r.session.ID :: successIDs rest
      else successIDs rest := by
  by_cases h : r.err.isNone <;> simp [successIDs, h]

theorem mem_catalogKeys_mergeAll (rs : List SessionResult) (m : Catalog)
    (k : String) :
    k ∈ catalogKeys (mergeAll rs m) ↔
      k ∈ catalogKeys m ∨ k ∈ successIDs rs := by
  induction rs generalizing m with
  | nil => simp [mergeAll, successIDs]
  | cons r rest ih =>
    rw [mergeAll_cons, ih, successIDs_cons]
    cases herr : r.err with
    | some e => simp [mergeResult, herr]
    | none =>
      simp only [mergeResult, herr, Option.isNone_none, if_pos,
        mem_catalogKeys_mapInsert, List.mem_cons]
      tauto

theorem catalogKeys_nodup_mergeAll (rs : List SessionResult) (m : Catalog)
    (hm : (catalogKeys m).Nodup) : (catalogKeys (mergeAll rs m)).Nodup := by
  induction rs generalizing m with
  | nil => simpa [mergeAll] using hm
  | cons r rest ih =>
    rw [mergeAll_cons]
    apply ih
    cases herr : r.err with
    | some e => simpa [mergeResult, herr] using hm
    | none =>
      simp only [mergeResult, herr]
      exact catalogKeys_nodup_mapInsert _ _ _ hm

theorem collectSpeakers_go (frags : List String) (acc : List String) :
    frags.foldl
      (fun acc s =>
        let name := trimSpace s
        if name ≠ "" then acc ++ [name] else acc) acc
      = acc ++ (frags.map trimSpace).filter (fun s => decide (s ≠ "")) := by
  induction frags generalizing acc with
  | nil => simp
  | cons f rest ih =>
    rw [List.foldl_cons, List.map_cons, List.filter_cons]
    by_cases h : trimSpace f = ""
    · have hstep :
          (let name := trimSpace f
           if name ≠ "" then acc ++ [name] else acc) = acc := by
        simp [h]
      rw [hstep, ih]
      simp [h]
    · have hstep :
          (let name := trimSpace f
           if name ≠ "" then acc ++ [name] else acc)
            = acc ++ [trimSpace f] := by
        simp [h]
      rw [hstep, ih]
      simp [h, List.append_assoc]

theorem collectSpeakers_eq (frags : List String) :
    collectSpeakers frags
      = (frags.map trimSpace).filter (fun s => decide (s ≠ "")) := by
  rw [collectSpeakers, collectSpeakers_go frags []]
  simp


/-- C1: the spec claims readiness is signaled exactly once per run and
never a second time.  The code's online path closes `sessionsReady`
twice — at the end of `fetcher.fetch` (sessions.go:124) and again in
`loadSessions`' goroutine (sessions.go:261).  Evaluated at a run where
every identifier fails: the trace holds two closes and, under Go's
channel semantics, the second close panics with "close of closed
channel", so the run does not signal readiness exactly once. -/
theorem c1_ready_closed_twice :
    countCloses (loadSessionsRun false [] allFailResults []).2 = 2
    ∧ runReadyCloses (loadSessionsRun false [] allFailResults []).2 false
        = .error "close of closed channel" := by
  exact ⟨rfl, rfl⟩

/-- C2: the retry loop of `fetcher.worker` makes at most 3 calls, its
sleeps are exactly `1, ..., calls-1` (so `attempt` units between
consecutive attempts and none after the last), it returns immediately
on the first success, and a stub failing twice then succeeding is
invoked exactly 3 times, returning the successful record with sleeps
`[1, 2]`. -/
theorem c2_retrying_fetch_job (f : Nat → Except String Session)
    (s : Session) (e1 e2 : String) :
    ((workerRetry f maxRetries).calls ≤ 3
      ∧ (workerRetry f maxRetries).sleeps
          = (List.range ((workerRetry f maxRetries).calls - 1)).map (· + 1))
    ∧ (f 1 = .ok s → workerRetry f maxRetries = ⟨.ok s, 1, []⟩)
    ∧ (f 1 = .error e1 → f 2 = .ok s →
        workerRetry f maxRetries = ⟨.ok s, 2, [1]⟩)
    ∧ (f 1 = .error e1 → f 2 = .error e2 → f 3 = .ok s →
        workerRetry f maxRetries = ⟨.ok s, 3, [1, 2]⟩) := by
  refine ⟨?_, ?_, ?_, ?_⟩
  · cases h1 : f 1 with
    | ok s1 =>
      have hw : workerRetry f maxRetries = ⟨.ok s1, 1, []⟩ := by
        simp [workerRetry, maxRetries, retryLoop, h1]
      rw [hw]
      exact ⟨by norm_num, rfl⟩
    | error t1 =>
      cases h2 : f 2 with
      | ok s2 =>
        have hw : workerRetry f maxRetries = ⟨.ok s2, 2, [1]⟩ := by
          simp [workerRetry, maxRetries, retryLoop, h1, h2]
        rw [hw]
        exact ⟨by norm_num, rfl⟩
      | error t2 =>
        cases h3 : f 3 with
        | ok s3 =>
          have hw : workerRetry f maxRetries = ⟨.ok s3, 3, [1, 2]⟩ := by
            simp [workerRetry, maxRetries, retryLoop, h1, h2, h3]
          rw [hw]
          exact ⟨by norm_num, rfl⟩
        | error t3 =>
          have hw : workerRetry f maxRetries = ⟨.error t3, 3, [1, 2]⟩ := by
            simp [workerRetry, maxRetries, retryLoop, h1, h2, h3]
          rw [hw]
          exact ⟨by norm_num, rfl⟩
  · intro h1
    simp [workerRetry, maxRetries, retryLoop, h1]
  · intro h1 h2
    simp [workerRetry, maxRetries, retryLoop, h1, h2]
  · intro h1 h2 h3
    simp [workerRetry, maxRetries, retryLoop, h1, h2, h3]

/-- Witness for C2: the concrete fail-twice-then-succeed stub is called
3 times, sleeps 1 then 2 units, and yields the successful record. -/
theorem c2_retrying_fetch_job_witness :
    workerRetry attemptFailTwice maxRetries = ⟨.ok sessionA, 3, [1, 2]⟩ :=
  (c2_retrying_fetch_job attemptFailTwice sessionA
      "first failure" "second failure").2.2.2 rfl rfl rfl

/-- C6 counterexample: for identifier "1545653" with an always-failing
fetch, the terminal error wraps the identifier but the URL does not
occur anywhere in the message — refuting "wrapped with both the
identifier and the URL". -/
theorem c6_counterexample :
    (workerJob fetchAlwaysFail parseHTMLOk "1545653").result
        = .error "failed to fetch session 1545653: network down"
    ∧ ¬ ((sessionURL "1545653").data <:+:
          "failed to fetch session 1545653: network down".data) :=
  ⟨rfl, by decide⟩

/-- C6 (amended): when all 3 attempts fail, the job makes exactly 3
fetch attempts, returns the last attempt's error wrapped with the
identifier (the URL is not included in the message), and the merge
loop stores nothing for that identifier. -/
theorem c6_terminal_failure (fetchStub : Nat → String → Except String String)
    (parseHTML : String → Except String Doc) (sid : String)
    (es : Nat → String)
    (hfail : ∀ a, fetchStub a (sessionURL sid) = .error (es a)) :
    (workerJob fetchStub parseHTML sid).result
        = .error ("failed to fetch session " ++ sid ++ ": " ++ es 3)
    ∧ (workerJob fetchStub parseHTML sid).calls = 3
    ∧ ∀ m : Catalog,
        mergeResult m (outcomeResult sid (workerJob fetchStub parseHTML sid))
          = m := by
  have h1 := hfail 1
  have h2 := hfail 2
  have h3 := hfail 3
  have hw : workerJob fetchStub parseHTML sid
      = ⟨.error ("failed to fetch session " ++ sid ++ ": " ++ es 3), 3,
          [1, 2]⟩ := by
    simp [workerJob, workerRetry, maxRetries, retryLoop, parseSession,
      h1, h2, h3]
  rw [hw]
  exact ⟨rfl, rfl, fun m => rfl⟩

/-- Witness for C6 (amended): the always-failing stub at identifier
"1545653" leaves the catalog empty. -/
theorem c6_terminal_failure_witness :
    mergeResult [] (outcomeResult "1545653"
        (workerJob fetchAlwaysFail parseHTMLOk "1545653")) = [] :=
  (c6_terminal_failure fetchAlwaysFail parseHTMLOk "1545653"
      (fun _ => "network down") (fun _ => rfl)).2.2 []

/-- C4: key integrity — after any sequence of put operations performed
by the merge loop on an initially empty map, `sessionByID` returns a
record whose `ID` field equals the requested key. -/
theorem c4_key_integrity (rs : List SessionResult) (k : String) (v : Session)
    (h : sessionByID (mergeAll rs []) k = some v) : v.ID = k :=
  mergeAll_pairs rs [] (by intro p hp; cases hp) (k, v)
    (mapLookup_mem _ _ _ h)

/-- Witness for C4 at a concrete result list and key. -/
theorem c4_key_integrity_witness :
    ({ Session.zero with ID := "1545653", Title := "T1" } : Session).ID
      = "1545653" :=
  c4_key_integrity sampleResults "1545653"
    { Session.zero with ID := "1545653", Title := "T1" } (by rfl)

/-- C3 counterexample: the hard-coded Identifier Set contains
"1557391" twice (sessions.go:300 and :301), so that identifier is sent
to the work queue — and fetched by — two jobs, refuting "each
identifier is fetched by exactly one job". -/
theorem c3_counterexample :
    sessionIDs.count "1557391" = 2 ∧ ¬ sessionIDs.Nodup := by
  exact ⟨by decide, by decide⟩

/-- C3 (amended): for results in which every success carries its own
identifier and every dispatched identifier comes from the Identifier
Set, `ListAll()` length equals the number of DISTINCT identifiers that
completed successfully, never exceeds the Identifier Set's size, and
the listed records' identifiers contain no duplicates.  (The original
claim's "each identifier is fetched by exactly one job" fails:
"1557391" occurs twice in the list and is dispatched twice; its merge
is idempotent on keys, which is what this theorem captures.) -/
theorem c3_listall_length (rs : List SessionResult)
    (hid : ∀ r ∈ rs, r.err = none → r.session.ID = r.sessionID)
    (hdisp : ∀ r ∈ rs, r.sessionID ∈ sessionIDs) :
    (sessions (mergeAll rs [])).length = (successIDs rs).dedup.length
    ∧ (sessions (mergeAll rs [])).length ≤ sessionIDs.length
    ∧ ((sessions (mergeAll rs [])).map Session.ID).Nodup := by
  have hnodup : (catalogKeys (mergeAll rs [])).Nodup :=
    catalogKeys_nodup_mergeAll rs [] (by simp [catalogKeys])
  have hmem : ∀ k, k ∈ catalogKeys (mergeAll rs []) ↔ k ∈ successIDs rs := by
    intro k
    simpa [catalogKeys] using mem_catalogKeys_mergeAll rs [] k
  have hsub : ∀ k ∈ successIDs rs, k ∈ sessionIDs := by
    intro k hk
    simp only [successIDs, List.mem_map, List.mem_filter] at hk
    obtain ⟨r, ⟨hr, herr⟩, rfl⟩ := hk
    rw [hid r hr (Option.isNone_iff_eq_none.mp herr)]
    exact hdisp r hr
  have hperm : (catalogKeys (mergeAll rs [])).Perm (successIDs rs).dedup := by
    apply List.perm_of_nodup_nodup_toFinset_eq hnodup
      (List.nodup_dedup _)
    ext a
    simp [List.mem_toFinset, List.mem_dedup, hmem]
  refine ⟨?_, ?_, ?_⟩
  · rw [length_sessions]
    exact hperm.length_eq
  · rw [length_sessions]
    calc (catalogKeys (mergeAll rs [])).length
        = (catalogKeys (mergeAll rs [])).toFinset.card :=
          (List.toFinset_card_of_nodup hnodup).symm
      _ ≤ sessionIDs.toFinset.card := by
          apply Finset.card_le_card
          intro a ha
          rw [List.mem_toFinset] at ha ⊢
          exact hsub a ((hmem a).mp ha)
      _ ≤ sessionIDs.length := List.toFinset_card_le _
  · have hpairs := mergeAll_pairs rs [] (by intro p hp; cases hp)
    have hkeys : (sessions (mergeAll rs [])).map Session.ID
        = catalogKeys (mergeAll rs []) := by
      simp only [sessions, catalogKeys, List.map_map]
      exact List.map_congr_left (fun p hp => hpairs p hp)
    rw [hkeys]
    exact hnodup

/-- Witness for C3 (amended) at a concrete result list: two successes
and one failure over real identifiers. -/
theorem c3_listall_length_witness :
    (sessions (mergeAll sampleResults [])).length
        = (successIDs sampleResults).dedup.length
    ∧ (sessions (mergeAll sampleResults [])).length ≤ sessionIDs.length
    ∧ ((sessions (mergeAll sampleResults [])).map Session.ID).Nodup :=
  c3_listall_length sampleResults (by decide) (by decide)

/-- C7: for parseable markup the extractor returns a record, never an
error; a selector with no match leaves its field at the zero value; a
scalar field is the whitespace-trimmed text of the first match; and
markup with a (non-whitespace) title but no description block yields a
record with a non-empty title and an empty description. -/
theorem c7_extraction_tolerance (fetchPage : String → Except String String)
    (parseHTML : String → Except String Doc) (doc : Doc)
    (sid url html : String)
    (hf : fetchPage url = .ok html) (hp : parseHTML html = .ok doc) :
    parseSession fetchPage parseHTML sid url
        = .ok (parseSessionDoc sid url doc)
    ∧ (∀ sel, extractScalar doc sel = trimSpace ((doc sel).headD ""))
    ∧ (∀ sel, doc sel = [] → extractScalar doc sel = "")
    ∧ (∀ t rest, doc ".session-title" = t :: rest → trimSpace t ≠ "" →
        doc ".session-description" = [] →
        (parseSessionDoc sid url doc).Title ≠ ""
        ∧ (parseSessionDoc sid url doc).Description = "") := by
  have hscalar : ∀ sel,
      extractScalar doc sel = trimSpace ((doc sel).headD "") := by
    intro sel
    simp only [extractScalar, findFirstText]
    by_cases h : (doc sel).headD "" = ""
    · rw [h]
      decide
    · rw [if_pos h]
  refine ⟨?_, hscalar, ?_, ?_⟩
  · simp [parseSession, hf, hp]
  · intro sel hsel
    rw [hscalar sel, hsel]
    decide
  · intro t rest ht hnt hd
    constructor
    · show extractScalar doc ".session-title" ≠ ""
      rw [hscalar, ht]
      simpa using hnt
    · show extractScalar doc ".session-description" = ""
      rw [hscalar, hd]
      decide

/-- Witness for C7: markup with title `" Go Forth "` and no
description block. -/
theorem c7_extraction_tolerance_witness :
    (parseSessionDoc "s1" (sessionURL "s1") docNoDesc).Title ≠ ""
    ∧ (parseSessionDoc "s1" (sessionURL "s1") docNoDesc).Description = "" :=
  (c7_extraction_tolerance fetchPageOk parseHTMLNoDesc docNoDesc "s1"
      (sessionURL "s1") stubPage rfl rfl).2.2.2
    " Go Forth " [] rfl (by decide) rfl

/-- C8 counterexample: with speaker fragments `["Alice", " "]` the
extracted speaker list is `["Alice"]`: fragments are trimmed and
whitespace-only fragments are dropped, so the list is not "all
fragments matching the speaker selector" — neither verbatim nor even
after trimming. -/
theorem c8_counterexample :
    (parseSessionDoc "s1" "u1" docSpeakerWS).Speakers = ["Alice"]
    ∧ (parseSessionDoc "s1" "u1" docSpeakerWS).Speakers
        ≠ docSpeakerWS ".speaker-name"
    ∧ (parseSessionDoc "s1" "u1" docSpeakerWS).Speakers
        ≠ (docSpeakerWS ".speaker-name").map trimSpace :=
  ⟨rfl, by decide, by decide⟩

/-- C8 (amended): the speaker list consists of the trimmed texts of
exactly those matching fragments whose trimmed text is non-empty, in
document order, with no deduplication — the multiplicity of every
non-empty name is preserved. -/
theorem c8_speaker_list (doc : Doc) (sid url : String) :
    (parseSessionDoc sid url doc).Speakers
        = ((doc ".speaker-name").map trimSpace).filter
            (fun s => decide (s ≠ ""))
    ∧ ∀ n : String, n ≠ "" →
        (parseSessionDoc sid url doc).Speakers.count n
          = ((doc ".speaker-name").map trimSpace).count n := by
  have hs : (parseSessionDoc sid url doc).Speakers
      = collectSpeakers (doc ".speaker-name") := rfl
  rw [hs, collectSpeakers_eq]
  refine ⟨rfl, ?_⟩
  intro n hn
  exact List.count_filter (decide_eq_true hn)

/-- Witness for C8 (amended): the duplicated speaker name in
`sampleDoc` keeps multiplicity 2. -/
theorem c8_speaker_list_witness :
    (parseSessionDoc "s1" "u1" sampleDoc).Speakers.count "Ann Lee" = 2 := by
  rw [(c8_speaker_list sampleDoc "s1" "u1").2 "Ann Lee" (by decide)]
  decide

/-- C9: offline load — `loadSessionsFromFile` merges every snapshot
entry exactly as the merge loop merges a successful fetch result; for
a snapshot of two distinct records the catalog afterwards holds
exactly those two records; and the offline path performs no network
fetch and signals readiness exactly once. -/
theorem c9_offline_load (a b : Session) (hne : a.ID ≠ b.ID) :
    (∀ fileData m, loadSessionsFromFile fileData m
        = mergeAll (fileData.map fun s => ⟨s.ID, s, none⟩) m)
    ∧ (loadSessionsRun true [a, b] [] []).1 = [(a.ID, a), (b.ID, b)]
    ∧ sessions (loadSessionsRun true [a, b] [] []).1 = [a, b]
    ∧ countFetches (loadSessionsRun true [a, b] [] []).2 = 0
    ∧ countCloses (loadSessionsRun true [a, b] [] []).2 = 1
    ∧ runReadyCloses (loadSessionsRun true [a, b] [] []).2 false
        = .ok true := by
  have hcat : (loadSessionsRun true [a, b] [] []).1
      = [(a.ID, a), (b.ID, b)] := by
    simp [loadSessionsRun, loadSessionsFromFile, mapInsert, hne]
  refine ⟨?_, hcat, ?_, rfl, rfl, rfl⟩
  · intro fileData m
    simp [loadSessionsFromFile, mergeAll, List.foldl_map, mergeResult]
  · rw [hcat]
    rfl

/-- Witness for C9 at the spec's concrete snapshot
`[sessionA, sessionB]`. -/
theorem c9_offline_load_witness :
    (loadSessionsRun true [sessionA, sessionB] [] []).1
        = [("A", sessionA), ("B", sessionB)]
    ∧ countFetches (loadSessionsRun true [sessionA, sessionB] [] []).2 = 0
    ∧ countCloses (loadSessionsRun true [sessionA, sessionB] [] []).2 = 1 := by
  have h := c9_offline_load sessionA sessionB (by decide)
  exact ⟨h.2.1, h.2.2.2.1, h.2.2.2.2.1⟩

/-- C10 counterexample: before readiness, with no load error and an
empty catalog, `SessionByID` for an unknown identifier returns only the
not-found message: main.go:92-95 assigns `res.Content`, overwriting the
still-loading notice, so this operation does not return the notice. -/
theorem c10_counterexample :
    SessionByIDTool ⟨false, none, []⟩ "X"
        = .ok { content := [notFoundText "X"], structured := none }
    ∧ stillLoadingText ∉ [notFoundText "X"] :=
  ⟨rfl, by decide⟩

/-- C10 (amended): before readiness with no recorded load error,
neither operation waits for the readiness signal: `AllSessions` returns
the current partial catalog copy together with the still-loading
notice; `SessionByID` evaluates its lookup immediately against the
current catalog but overwrites the notice — an unknown identifier
yields only the not-found message (and no error), a known one only the
success message with the record. -/
theorem c10_nonblocking (st : ServerState) (sid : String) (s : Session)
    (hload : st.sessionsLoaded = false) (herr : st.loadingError = none) :
    AllSessions st
        = .ok { content := [stillLoadingText],
                structured := some (sessions st.store) }
    ∧ (sessionByID st.store sid = none →
        SessionByIDTool st sid
          = .ok { content := [notFoundText sid], structured := none })
    ∧ (sessionByID st.store sid = some s →
        SessionByIDTool st sid
          = .ok { content := [foundText], structured := some [s] }) := by
  refine ⟨?_, ?_, ?_⟩
  · simp [AllSessions, hload, herr]
  · intro hnone
    simp [SessionByIDTool, sessionByIDRest, hload, herr, hnone]
  · intro hsome
    simp [SessionByIDTool, sessionByIDRest, hload, herr, hsome]

/-- Witness for C10 (amended) at a concrete partial catalog. -/
theorem c10_nonblocking_witness :
    AllSessions loadingState
        = .ok { content := [stillLoadingText], structured := some [sessionA] }
    ∧ SessionByIDTool loadingState "X"
        = .ok { content := [notFoundText "X"], structured := none }
    ∧ SessionByIDTool loadingState "A"
        = .ok { content := [foundText], structured := some [sessionA] } := by
  have hx := c10_nonblocking loadingState "X" Session.zero rfl rfl
  have ha := c10_nonblocking loadingState "A" sessionA rfl rfl
  exact ⟨hx.1, hx.2.1 rfl, ha.2.2 rfl⟩

/-- C5 counterexample: `sessions()` copies the struct, but the copy
shares the `Speakers` backing array with the stored record.  With one
stored record whose speakers are `["Alice"]`: the caller takes the
returned copy, writes element 0 of its `Speakers` slice, and a
subsequent store read observes `["Mallory"]` — a caller mutation of
the returned value changed the store's later reads. -/
theorem c5_counterexample :
    sessionsH storeH0 = [sampleRecH]
    ∧ readSpeakers storeH0 sampleRecH = ["Alice"]
    ∧ readSpeakers (writeSpeaker storeH0 sampleRecH 0 "Mallory")
        ((sessionByIDH (writeSpeaker storeH0 sampleRecH 0 "Mallory")
          "s1").getD sampleRecH)
      = ["Mallory"] :=
  ⟨rfl, rfl, rfl⟩

/-- C5 (amended): the returned slice is a fresh top-level copy — a
record already returned to a caller observes the same speaker list
after any subsequent store write, because a put allocates a fresh
backing array and modifies no existing one; the sharing of the
`Speakers` backing array between a returned copy and the store is the
one exception (see the counterexample). -/
theorem c5_defensive_copy (st : StoreH) (s : SessionH)
    (href : s.speakersRef < st.heap.length)
    (id title url date desc time loc dur : String)
    (speakers : List String) :
    readSpeakers (putH st id title url date desc time loc dur speakers) s
      = readSpeakers st s := by
  unfold readSpeakers putH
  exact List.getD_append _ _ _ _ href

/-- Witness for C5 (amended): after putting a second record, the copy
of the first still reads `["Alice"]`. -/
theorem c5_defensive_copy_witness :
    readSpeakers (putH storeH0 "s2" "T2" "u2" "" "" "" "" "" ["Bob"])
        sampleRecH = ["Alice"] := by
  rw [c5_defensive_copy storeH0 sampleRecH (by decide)
    "s2" "T2" "u2" "" "" "" "" "" ["Bob"]]
  rfl
